import Mathlib

/-!
Verification of the `mr-tools` repository: three Python CLI scripts
(`nanobanana.py`, `geminipro.py`, `yt_transcript.py`).

Modelling conventions:
* Python strings are modelled as `List Char` in the parsing code (where we
  need induction) and as Lean `String` for opaque message payloads.
* `json.loads` is an external stdlib function; the scraper definitions are
  parameterised over it (`loads : List Char → Option JVal`, `none` meaning
  `json.JSONDecodeError`).  A concrete executable parser `json_loads`
  covering the integer fragment of JSON is provided for concrete runs.
* External effects (library imports, HTTP calls, the browser cookie jar,
  exceptions raised by library calls) are inputs of the model: each async
  operation becomes a pure function of an environment record holding the
  outcome of every external call it makes, consumed exactly once (the code
  has no retry loops).  Each operation is modelled in two layers: the
  guard-and-try-block stage, which always produces a result dictionary, and
  a full-run wrapper (`chat_run`, `edit_image_run`,
  `generate_image_streaming_run`) of type `Except PyExc ResultDict`, which
  also carries the two raise paths that escape the `try`: the cookie-file
  read inside `load_cookies()` (called before the `try`; only
  `json.JSONDecodeError` is caught there) and `await client.close()` in the
  `finally` clause, whose exception replaces the returned dictionary.
* Recursions that Python bounds with a depth counter are encoded with an
  explicit fuel argument kept equal to `cap + 1 - depth`, so that the
  functions stay kernel-reducible; the fuel is pure bookkeeping and the
  depth tests are exactly those of the source.
-/

/-- JSON values as produced by Python `json.loads`: null, booleans, numbers,
strings, arrays, objects.  Numbers are modelled by `Int` (the floating-point
fragment is not needed by any claim). -/
inductive JVal where
  | null : JVal
  | bool : Bool → JVal
  | num : Int → JVal
  | str : List Char → JVal
  | arr : List JVal → JVal
  | obj : List (List Char × JVal) → JVal

/-- Match a literal `pat` against the front of `s`; on success return the
remainder.  `(litMatch pat s).isSome` is Python `s.startswith(pat)`. -/
def litMatch : List Char → List Char → Option (List Char)
  | [], s => some s
  | _ :: _, [] => none
  | p :: ps, c :: cs => if c = p then litMatch ps cs else none

/-- Python `needle in hay` for strings: some suffix of `hay` starts with
`needle`. -/
def containsSub : List Char → List Char → Bool
  | [], needle => needle.isEmpty
  | c :: rest, needle => (litMatch needle (c :: rest)).isSome || containsSub rest needle

/-- Python `needle in hay` on Lean strings. -/
def containsStr (hay needle : String) : Bool := containsSub hay.data needle.data

/-- Python `str.strip()` (whitespace at both ends removed). -/
def pyStrip (l : List Char) : List Char :=
  ((l.dropWhile Char.isWhitespace).reverse.dropWhile Char.isWhitespace).reverse

/-- Python `str.split('\n')`: e.g. `"" ↦ [""]`, `"a\nb" ↦ ["a","b"]`. -/
def splitNl : List Char → List (List Char)
  | [] => [[]]
  | c :: rest =>
    let r := splitNl rest
    if c = '\n' then [] :: r
    else
      match r with
      | h :: t => (c :: h) :: t
      | [] => [[c]]

/-- Python `str.isdigit()` (restricted to ASCII digits): nonempty and all
digits. -/
def isDigitL (l : List Char) : Bool := !l.isEmpty && l.all Char.isDigit

/-- Python `str.lower()` (ASCII range). -/
def pyLower (s : String) : String := String.mk (s.data.map Char.toLower)

/-- The character `\x7b` (left curly brace), written via its code point. -/
def lbraceChar : Char := Char.ofNat 123

/-- The character `\x7d` (right curly brace), written via its code point. -/
def rbraceChar : Char := Char.ofNat 125

/-- Concatenation of a list of lists (used to model Python loops that
`extend` an accumulator). -/
def concatAll : List (List α) → List α
  | [] => []
  | l :: ls => l ++ concatAll ls

/- ---------------------------------------------------------------------
A concrete executable JSON parser (integer fragment), standing in for the
Python stdlib `json.loads` when the model is run on concrete inputs.  The
scraper definitions below take the parser as a parameter, so every general
theorem quantifies over it.
--------------------------------------------------------------------- -/

/-- JSON whitespace. -/
def jsonWs (c : Char) : Bool := c = ' ' || c = '\n' || c = '\t' || c = '\r'

/-- Drop leading JSON whitespace. -/
def skipWs (l : List Char) : List Char := l.dropWhile jsonWs

/-- Decode one escape character of a JSON string literal. -/
def escChar (c : Char) : Option Char :=
  if c = '\"' then some '\"'
  else if c = '\\' then some '\\'
  else if c = '/' then some '/'
  else if c = 'n' then some '\n'
  else if c = 't' then some '\t'
  else if c = 'r' then some '\r'
  else none

/-- Parse the body of a JSON string literal after the opening quote; return
the decoded characters and the input remaining after the closing quote. -/
def parseStrBody : List Char → Option (List Char × List Char)
  | [] => none
  | c :: rest =>
    if c = '\"' then some ([], rest)
    else if c = '\\' then
      match rest with
      | [] => none
      | e :: rest2 =>
        match escChar e, parseStrBody rest2 with
        | some ec, some (body, rem) => some (ec :: body, rem)
        | _, _ => none
    else
      match parseStrBody rest with
      | some (body, rem) => some (c :: body, rem)
      | none => none

/-- Decimal digits to a natural number. -/
def digitsToNat (l : List Char) : Nat := l.foldl (fun n c => n * 10 + (c.toNat - 48)) 0

/-- Parse a JSON integer (floats are rejected: no claim needs them). -/
def parseNum (l : List Char) : Option (JVal × List Char) :=
  let p := match l with
    | '-' :: rest => (true, rest)
    | _ => (false, l)
  let ds := p.2.takeWhile Char.isDigit
  let rest := p.2.dropWhile Char.isDigit
  if ds.isEmpty then none
  else
    match rest with
    | '.' :: _ => none
    | 'e' :: _ => none
    | 'E' :: _ => none
    | _ => some (.num (if p.1 then -(digitsToNat ds : Int) else (digitsToNat ds : Int)), rest)

/-- Parse the elements of a JSON array after the first element position,
given a parser `p` for single values. -/
def parseElems (p : List Char → Option (JVal × List Char)) : Nat → List Char → Option (List JVal × List Char)
  | 0, _ => none
  | fuel+1, l =>
    match p l with
    | none => none
    | some (v, rest) =>
      match skipWs rest with
      | ']' :: rest2 => some ([v], rest2)
      | ',' :: rest2 =>
        match parseElems p fuel rest2 with
        | some (vs, rem) => some (v :: vs, rem)
        | none => none
      | _ => none

/-- Parse the members of a JSON object, given a parser `p` for values. -/
def parseMembers (p : List Char → Option (JVal × List Char)) : Nat → List Char → Option (List (List Char × JVal) × List Char)
  | 0, _ => none
  | fuel+1, l =>
    match skipWs l with
    | [] => none
    | c :: rest =>
      if c = '\"' then
        match parseStrBody rest with
        | none => none
        | some (key, rem) =>
          match skipWs rem with
          | ':' :: rem2 =>
            match p rem2 with
            | none => none
            | some (v, rem3) =>
              match skipWs rem3 with
              | [] => none
              | c2 :: rem4 =>
                if c2 = rbraceChar then some ([(key, v)], rem4)
                else if c2 = ',' then
                  match parseMembers p fuel rem4 with
                  | some (ms, rem5) => some ((key, v) :: ms, rem5)
                  | none => none
                else none
          | _ => none
      else none

/-- Fuel-bounded JSON value parser. -/
def parseJ : Nat → List Char → Option (JVal × List Char)
  | 0, _ => none
  | fuel+1, l =>
    match skipWs l with
    | [] => none
    | c :: rest =>
      if c = 'n' then
        match litMatch "ull".data rest with
        | some rem => some (.null, rem)
        | none => none
      else if c = 't' then
        match litMatch "rue".data rest with
        | some rem => some (.bool true, rem)
        | none => none
      else if c = 'f' then
        match litMatch "alse".data rest with
        | some rem => some (.bool false, rem)
        | none => none
      else if c = '\"' then
        match parseStrBody rest with
        | some (body, rem) => some (.str body, rem)
        | none => none
      else if c = '[' then
        match skipWs rest with
        | ']' :: rem => some (.arr [], rem)
        | l2 =>
          match parseElems (parseJ fuel) (fuel+1) l2 with
          | some (vs, rem) => some (.arr vs, rem)
          | none => none
      else if c = lbraceChar then
        match skipWs rest with
        | [] => none
        | c2 :: rem =>
          if c2 = rbraceChar then some (.obj [], rem)
          else
            match parseMembers (parseJ fuel) (fuel+1) (c2 :: rem) with
            | some (ms, rem2) => some (.obj ms, rem2)
            | none => none
      else parseNum (c :: rest)

/-- Concrete stand-in for Python `json.loads`: parse a complete JSON value,
rejecting trailing garbage; `none` plays the role of `json.JSONDecodeError`. -/
def json_loads (l : List Char) : Option JVal :=
  match parseJ (l.length + 1) l with
  | some (v, rem) => if (skipWs rem).isEmpty then some v else none
  | none => none

/- ---------------------------------------------------------------------
`src/tools/nanobanana/nanobanana.py`: the streaming-response scraper.
--------------------------------------------------------------------- -/

namespace Nanobanana

/-- The XSSI protection marker `)]\x7d\x27` that Google prepends to JSON
responses (the two final characters are written as code points). -/
def xssiChars : List Char := ")]\x7d\x27".data

/-- `obj.startswith('[') or obj.startswith('\x7b')` from
`unpack_nested_json`. -/
def startsBracket : List Char → Bool
  | [] => false
  | c :: _ => c = '[' || c = lbraceChar

/-- Fuel-encoded body of `unpack_nested_json` (nanobanana.py lines 156-175).
The fuel is kept equal to `11 - depth`, so fuel `0` is exactly the
`depth > 10` cut-off of the source. -/
def unpackGo (loads : List Char → Option JVal) : Nat → JVal → Nat → JVal
  | 0, obj, _ => obj
  | fuel+1, obj, depth =>
    if depth > 10 then obj
    else
      match obj with
      | .str s =>
        if startsBracket s then
          match loads s with
          | some parsed => unpackGo loads fuel parsed (depth + 1)
          | none => .str s
        else .str s
      | .arr items => .arr (items.map (fun it => unpackGo loads fuel it (depth + 1)))
      | .obj kvs => .obj (kvs.map (fun kv => (kv.1, unpackGo loads fuel kv.2 (depth + 1))))
      | other => other

/-- `unpack_nested_json(obj, depth)`: recursively re-parse JSON strings
inside a structure, giving up below depth 10.  (The Python default argument
is `depth=0`; callers in this model pass it explicitly.) -/
def unpack_nested_json (loads : List Char → Option JVal) (obj : JVal) (depth : Nat) : JVal :=
  unpackGo loads (11 - depth) obj depth

/-- The loop of `parse_streaming_response` over the split lines
(nanobanana.py lines 128-151): a line that is all digits is a byte count
for the next line, which is JSON-parsed, both lines being consumed;
otherwise the stripped line itself is JSON-parsed; parse failures append
nothing (`except json.JSONDecodeError: pass`). -/
def psrLoop (loads : List Char → Option JVal) : List (List Char) → List JVal
  | [] => []
  | rawLine :: rest =>
    if isDigitL (pyStrip rawLine) then
      match rest with
      | [] => []
      | jsonLine :: rest2 =>
        match loads jsonLine with
        | some parsed => unpack_nested_json loads parsed 0 :: psrLoop loads rest2
        | none => psrLoop loads rest2
    else
      match loads (pyStrip rawLine) with
      | some parsed => unpack_nested_json loads parsed 0 :: psrLoop loads rest
      | none => psrLoop loads rest

/-- `parse_streaming_response(data)` (nanobanana.py lines 118-153): drop the
leading XSSI marker when present, strip, split on newlines, and run the
chunk loop. -/
def parse_streaming_response (loads : List Char → Option JVal) (data : List Char) : List JVal :=
  let data2 := if (litMatch xssiChars data).isSome then data.drop 4 else data
  psrLoop loads (splitNl (pyStrip data2))

/-- URL marker of the dedicated first branch of `find_image_urls_recursive`. -/
def ggDlMarker : List Char := "https://lh3.googleusercontent.com/gg-dl/".data

/-- URL scheme marker of the second branch. -/
def httpsMarker : List Char := "https://".data

/-- Host substring required by the second branch. -/
def gucNeedle : List Char := "googleusercontent.com".data

/-- Fuel-encoded body of `find_image_urls_recursive` (nanobanana.py lines
189-209); fuel is kept equal to `31 - depth`, so fuel `0` is the
`depth > 30` cut-off. -/
def findGo : Nat → JVal → Nat → List (List Char)
  | 0, _, _ => []
  | fuel+1, obj, depth =>
    if depth > 30 then []
    else
      match obj with
      | .str s =>
        if (litMatch ggDlMarker s).isSome then [s]
        else if (litMatch httpsMarker s).isSome && containsSub s gucNeedle then [s]
        else []
      | .arr items => concatAll (items.map (fun it => findGo fuel it (depth + 1)))
      | .obj kvs => concatAll (kvs.map (fun kv => findGo fuel kv.2 (depth + 1)))
      | _ => []

/-- `find_image_urls_recursive(obj, depth)`. -/
def find_image_urls_recursive (obj : JVal) (depth : Nat) : List (List Char) :=
  findGo (31 - depth) obj depth

/-- `extract_image_urls(parsed_chunks)` (nanobanana.py lines 178-186):
collect URLs from every chunk, then deduplicate (`list(set(...))`; the set
order is not modelled, membership is what the claims are about). -/
def extract_image_urls (parsed_chunks : List JVal) : List (List Char) :=
  (concatAll (parsed_chunks.map (fun chunk => find_image_urls_recursive chunk 0))).dedup

/-- The fixed URL pattern of the claim: starts with `https://` and contains
`googleusercontent.com`.  (The `gg-dl` branch of the source is an instance
of this pattern.) -/
def isImageUrl (s : List Char) : Bool :=
  (litMatch httpsMarker s).isSome && containsSub s gucNeedle

/-- `s` occurs as a string leaf at nesting depth `k` inside a JSON tree. -/
inductive OccursAt : List Char → Nat → JVal → Prop where
  | here (s : List Char) : OccursAt s 0 (.str s)
  | inArr {s : List Char} {k : Nat} (it : JVal) (items : List JVal) :
      it ∈ items → OccursAt s k it → OccursAt s (k+1) (.arr items)
  | inObj {s : List Char} {k : Nat} (kv : List Char × JVal) (kvs : List (List Char × JVal)) :
      kv ∈ kvs → OccursAt s k kv.2 → OccursAt s (k+1) (.obj kvs)

/-- A singleton-array tower of height `n` around a value: used to exhibit
deeply nested inputs. -/
def deepNest : Nat → JVal → JVal
  | 0, v => v
  | n+1, v => .arr [deepNest n v]

end Nanobanana

/- ---------------------------------------------------------------------
Result dictionaries and the model of external effects.
--------------------------------------------------------------------- -/

/-- One entry of `result.to_raw_data()` from the transcript API.  The
`start`/`duration` timing fields are floating point and outside this
embedding; no claim inspects them. -/
structure TranscriptEntry where
  text : String

/-- The ephemeral result dictionary shared by all operations.  A key is
present in the Python dict iff the corresponding field is `some`. -/
structure ResultDict where
  status : String
  error : Option String := none
  text : Option String := none
  thoughts : Option String := none
  filepath : Option String := none
  transcript : Option (List TranscriptEntry) := none
  video_id : Option String := none

/-- `{"status": "error", "error": msg}`. -/
def mkError (msg : String) : ResultDict := { status := "error", error := some msg }

/-- `{"status": "error", "error": msg, "video_id": vid}` (yt-transcript). -/
def mkErrorVid (msg vid : String) : ResultDict :=
  { status := "error", error := some msg, video_id := some vid }

/-- An exception raised by an external library call: either an
`httpx.TimeoutException` or any other `Exception`; the payload is `str(e)`. -/
inductive PyExc where
  | timeout (msg : String)
  | other (msg : String)

/-- `str(e)` of a caught exception. -/
def excStr : PyExc → String
  | .timeout m => m
  | .other m => m

/-- Outcome of one external call: a value, or a raised exception. -/
inductive Step (α : Type) where
  | ok (val : α)
  | raise (e : PyExc)

/-- Python dicts with string keys and values (insertion-ordered assoc
list). -/
abbrev PyDict := List (String × String)

/-- Dict lookup (`d.get(k)` / `k in d`). -/
def pyGet (k : String) : PyDict → Option String
  | [] => none
  | (k2, v) :: rest => if k2 = k then some v else pyGet k rest

/-- Dict assignment `d[k] = v`: overwrite in place, else append. -/
def pySet (k v : String) : PyDict → PyDict
  | [] => [(k, v)]
  | (k2, w) :: rest => if k2 = k then (k, v) :: rest else (k2, w) :: pySet k v rest

/-- Python truthiness of `load_cookies()`: `None` or the empty dict are
falsy (`if not cookies:`). -/
def pyFalsy : Option PyDict → Bool
  | none => true
  | some d => d.isEmpty

/-- Exit code `EXIT_SUCCESS = 0`. -/
def EXIT_SUCCESS : Nat := 0

/-- Exit code `EXIT_ERROR = 1`. -/
def EXIT_ERROR : Nat := 1

/-- The shared tail of `main()` in nanobanana.py (lines 449-462) and
geminipro.py (lines 156-173): in `--json` mode exit 1 iff status is
`"error"`, in plain mode exit 0 iff status is `"complete"`. -/
def mainExitFromResult (jsonMode : Bool) (r : ResultDict) : Nat :=
  if jsonMode then (if r.status = "error" then EXIT_ERROR else EXIT_SUCCESS)
  else (if r.status = "complete" then EXIT_SUCCESS else EXIT_ERROR)

/- ---------------------------------------------------------------------
`setup_cookies` (identical code in nanobanana.py lines 45-86 and
geminipro.py lines 30-71).
--------------------------------------------------------------------- -/

namespace Nanobanana

/-- A cookie from the browser jar returned by `browser_cookie3.chrome`. -/
structure BrowserCookie where
  name : String
  value : String

/-- External world of `setup_cookies`: whether `browser_cookie3` imports,
and the outcome of reading the Chrome jar. -/
structure SetupEnv where
  bc3Installed : Bool
  jar : Step (List BrowserCookie)

/-- The persisted `~/.nanobanana/cookies.json` file after a successful
setup: its JSON contents and its permission bits. -/
structure CookieFile where
  contents : PyDict
  mode : Nat

/-- The jar loop of `setup_cookies`: keep only the two Google session
cookies, renamed. -/
def collectJar : List BrowserCookie → PyDict → PyDict
  | [], acc => acc
  | c :: rest, acc =>
    if c.name = "__Secure-1PSID" then collectJar rest (pySet "Secure_1PSID" c.value acc)
    else if c.name = "__Secure-1PSIDTS" then collectJar rest (pySet "Secure_1PSIDTS" c.value acc)
    else collectJar rest acc

/-- `setup_cookies()`: `none` models `sys.exit(EXIT_ERROR)` before any file
is written (import failure, jar access failure, or missing
`__Secure-1PSID`); `some f` is the written cookie file, chmod `0o600`.
A missing `__Secure-1PSIDTS` only prints a warning and still succeeds. -/
def setup_cookies (env : SetupEnv) : Option CookieFile :=
  if !env.bc3Installed then none
  else
    match env.jar with
    | .raise _ => none
    | .ok jar =>
      let cookies := collectJar jar []
      if (pyGet "Secure_1PSID" cookies).isNone then none
      else some { contents := cookies, mode := 0o600 }

/- ---------------------------------------------------------------------
`edit_image` (nanobanana.py lines 212-272) and
`generate_image_streaming` (lines 275-402).
--------------------------------------------------------------------- -/

/-- The `gemini_webapi` response used by `edit_image`: the list of returned
images (their save targets are not modelled beyond existence) and the
response text. -/
structure EditResponse where
  images : List String
  text : String

/-- External world of the guard-and-try-block stage of `edit_image`:
`cookies` is the value returned by a non-raising `load_cookies()` call.  The
raise paths of the pre-`try` cookie read and of the `finally` close are
carried by `EditWorld` / `edit_image_run` below. -/
structure EditEnv where
  webapiInstalled : Bool
  input_image : String
  inputExists : Bool
  cookies : Option PyDict
  clientInit : Step Unit
  generate : Step EditResponse
  save : Step Unit

/-- The result dictionary of `edit_image(prompt, input_image, output_dir,
filename, ...)` (nanobanana.py lines 212-272) on runs where no exception
escapes; the full run including escaping exceptions is `edit_image_run`.
The prompt only travels to the remote call, so it is not a parameter of the
result. -/
def edit_image (env : EditEnv) (output_dir filename : String) : ResultDict :=
  if !env.webapiInstalled then
    mkError "gemini-webapi not installed. Run: pip install gemini-webapi"
  else if !env.inputExists then
    mkError ("Input image not found: " ++ env.input_image)
  else if pyFalsy env.cookies then
    mkError "No cookies. Run: nanobanana --setup"
  else if (pyGet "Secure_1PSID" (env.cookies.getD [])).isNone then
    mkError "Invalid cookies. Run: nanobanana --setup"
  else
    match env.clientInit with
    | .raise e => mkError (excStr e)
    | .ok _ =>
      match env.generate with
      | .raise e => mkError (excStr e)
      | .ok resp =>
        match resp.images with
        | _ :: _ =>
          match env.save with
          | .raise e => mkError (excStr e)
          | .ok _ =>
            { status := "complete", filepath := some (output_dir ++ "/" ++ filename ++ ".png") }
        | [] =>
          mkError (if resp.text = "" then "No image returned from edit request" else resp.text)

/-- The raw HTTP streaming response of the direct `StreamGenerate` call. -/
structure StreamResp where
  status_code : Nat
  reason_phrase : String
  chunks : List String

/-- External world of the guard-and-try-block stage of
`generate_image_streaming`: `cookies` is the value returned by a
non-raising `load_cookies()` call.  The raise paths of the pre-`try` cookie
read and of the `finally` close are carried by `GenWorld` /
`generate_image_streaming_run` below. -/
structure GenEnv where
  webapiInstalled : Bool
  cookies : Option PyDict
  clientInit : Step Unit
  http : Step StreamResp
  download : Step Nat

/-- The streaming loop (nanobanana.py lines 336-352): accumulate chunks and
periodically re-scan for image URLs (`len(accumulated) % 10000 < len(chunk)`
after appending); a non-empty find overwrites the current URL list. -/
def streamLoop (loads : List Char → Option JVal) : List String → String × List (List Char) → String × List (List Char)
  | [], st => st
  | chunk :: rest, (acc, urls) =>
    let acc2 := acc ++ chunk
    let urls2 :=
      if acc2.length % 10000 < chunk.length then
        let found := extract_image_urls (parse_streaming_response loads acc2.data)
        if found.isEmpty then urls else found
      else urls
    streamLoop loads rest (acc2, urls2)

/-- The exception handlers of `generate_image_streaming` (lines 393-399):
`httpx.TimeoutException` gets a canned message, anything else `str(e)`. -/
def genExc (timeout : Nat) : PyExc → ResultDict
  | .timeout _ => mkError (s!"Request timed out after {timeout}s")
  | .other m => mkError m

/-- The final URL list of `generate_image_streaming` (lines 362-365): if the
periodic scans found nothing, parse the whole accumulated body once more. -/
def genFinalUrls (loads : List Char → Option JVal) (chunks : List String) : List (List Char) :=
  let st := streamLoop loads chunks ("", [])
  if st.2.isEmpty then extract_image_urls (parse_streaming_response loads st.1.data) else st.2

/-- The result dictionary of `generate_image_streaming(prompt, output_dir,
filename, timeout, debug)` (nanobanana.py lines 275-402) on runs where no
exception escapes; the full run including escaping exceptions is
`generate_image_streaming_run`.  `loads` stands for the stdlib `json.loads`
used by the scraper; `debug` branches only print or write a debug file and
do not alter the result. -/
def generate_image_streaming (env : GenEnv) (loads : List Char → Option JVal)
    (output_dir filename : String) (timeout : Nat) : ResultDict :=
  if !env.webapiInstalled then
    mkError "gemini-webapi not installed. Run: pip install gemini-webapi"
  else if pyFalsy env.cookies then
    mkError "No cookies. Run: nanobanana --setup"
  else if (pyGet "Secure_1PSID" (env.cookies.getD [])).isNone then
    mkError "Invalid cookies. Run: nanobanana --setup"
  else
    match env.clientInit with
    | .raise e => genExc timeout e
    | .ok _ =>
      match env.http with
      | .raise e => genExc timeout e
      | .ok resp =>
        if resp.status_code ≠ 200 then
          mkError (s!"HTTP {resp.status_code}: " ++ resp.reason_phrase)
        else
          let acc := (streamLoop loads resp.chunks ("", [])).1
          let image_urls := genFinalUrls loads resp.chunks
          if image_urls.isEmpty then
            (if containsStr acc "Loading Nano Banana Pro" then
              mkError "Image generation timed out. Try longer --timeout"
            else if containsStr acc "I can search for images" then
              mkError "Image generation failed - API returned search mode instead of generation. Cookies may need refresh."
            else mkError "No image URLs found in response")
          else
            match env.download with
            | .raise e => genExc timeout e
            | .ok code =>
              if code ≠ 200 then mkError (s!"Failed to download image: HTTP {code}")
              else { status := "complete", filepath := some (output_dir ++ "/" ++ filename ++ ".png") }

/-- Tail of nanobanana `main()` (lines 443-462): pick the operation from
`--edit`, then print and exit by status. -/
def main_exit (jsonMode editMode : Bool) (eenv : EditEnv) (genv : GenEnv)
    (loads : List Char → Option JVal) (output_dir filename : String) (timeout : Nat) : Nat :=
  let result :=
    if editMode then edit_image eenv output_dir filename
    else generate_image_streaming genv loads output_dir filename timeout
  mainExitFromResult jsonMode result

end Nanobanana

/- ---------------------------------------------------------------------
`src/tools/nanobanana/geminipro.py`: the chat CLI.
--------------------------------------------------------------------- -/

namespace Geminipro

/-- One candidate of a `gemini_webapi` response; `thoughts` empty models a
falsy `candidates[0].thoughts`. -/
structure Candidate where
  thoughts : String

/-- A `gemini_webapi` chat response. -/
structure GemResponse where
  text : String
  candidates : List Candidate

/-- External world of the guard-and-try-block stage of `chat`: `cookies` is
the value returned by a non-raising `load_cookies()` call.  The raise path
of the cookie-file read (which happens before the `try`) and the
`finally: await client.close()` raise are carried by `ChatWorld` /
`chat_run` below. -/
structure ChatEnv where
  webapiInstalled : Bool
  cookies : Option PyDict
  clientInit : Step Unit
  generate : Step GemResponse

/-- The result dictionary of `chat(prompt, show_thoughts, timeout)`
(geminipro.py lines 84-123) on runs where no exception escapes; the full
run including escaping exceptions is `chat_run`. -/
def chat (env : ChatEnv) (show_thoughts : Bool) : ResultDict :=
  if !env.webapiInstalled then
    mkError "gemini-webapi not installed. Run: pip install gemini-webapi"
  else if pyFalsy env.cookies then
    mkError "No cookies. Run: geminipro --setup"
  else if (pyGet "Secure_1PSID" (env.cookies.getD [])).isNone then
    mkError "Invalid cookies. Run: geminipro --setup"
  else
    match env.clientInit with
    | .raise e => mkError (excStr e)
    | .ok _ =>
      match env.generate with
      | .raise e => mkError (excStr e)
      | .ok resp =>
        let result : ResultDict := { status := "complete", text := some resp.text }
        match show_thoughts, resp.candidates with
        | true, c :: _ =>
          if c.thoughts = "" then result else { result with thoughts := some c.thoughts }
        | _, _ => result

/-- Tail of geminipro `main()` (lines 154-173). -/
def main_exit (jsonMode : Bool) (env : ChatEnv) (show_thoughts : Bool) : Nat :=
  mainExitFromResult jsonMode (chat env show_thoughts)

end Geminipro

/- ---------------------------------------------------------------------
`src/tools/yt-transcript/yt_transcript.py`.

`extract_video_id` tries five regular expressions in order with
`re.search`.  Each is modelled directly: a literal marker, for the first
pattern a greedy `.*` (not crossing a newline) before `v=`, then a capture
group of exactly eleven characters of `[a-zA-Z0-9_-]`; `re.search` scans for
the leftmost start position at which the whole pattern matches.
--------------------------------------------------------------------- -/

namespace YtTranscript

/-- The character class `[a-zA-Z0-9_-]` (ASCII). -/
def videoIdChar (c : Char) : Bool :=
  c.isUpper || c.isLower || c.isDigit || c = '_' || c = '-'

/-- `([a-zA-Z0-9_-]{11})`: capture exactly eleven class characters at the
front; return the capture and the remainder. -/
def take11 (l : List Char) : Option (List Char × List Char) :=
  if (l.take 11).length = 11 ∧ (l.take 11).all videoIdChar then some (l.take 11, l.drop 11)
  else none

/-- The capture group alone. -/
def cap11 (l : List Char) : Option (List Char) := (take11 l).map Prod.fst

/-- The literal `v=`. -/
def vEqMarker : List Char := "v=".data

/-- `.*v=([a-zA-Z0-9_-]{11})` with a greedy `.*` that cannot cross a
newline: prefer the longest consumed run, i.e. the latest `v=` followed by a
valid capture. -/
def greedyVCapture : List Char → Option (List Char)
  | [] => none
  | c :: cs =>
    match (if c = '\n' then none else greedyVCapture cs) with
    | some cap => some cap
    | none =>
      match litMatch vEqMarker (c :: cs) with
      | some rem => cap11 rem
      | none => none

/-- `re.search` for `marker` followed by tail pattern `k`: try every start
position left to right; at each, the marker must match literally and `k`
must accept the remainder. -/
def searchRe (k : List Char → Option (List Char)) (marker : List Char) : List Char → Option (List Char)
  | [] => none
  | c :: cs =>
    match litMatch marker (c :: cs) with
    | some r =>
      match k r with
      | some cap => some cap
      | none => searchRe k marker cs
    | none => searchRe k marker cs

/-- Marker of pattern 1, `youtube\.com/watch\?` (before `.*v=`). -/
def watchMarker : List Char := "youtube.com/watch?".data

/-- Marker of pattern 2, `youtu\.be/`. -/
def shortUrlMarker : List Char := "youtu.be/".data

/-- Marker of pattern 3, `youtube\.com/embed/`. -/
def embedMarker : List Char := "youtube.com/embed/".data

/-- Marker of pattern 4, `youtube\.com/shorts/`. -/
def shortsMarker : List Char := "youtube.com/shorts/".data

/-- Pattern 5, `^([a-zA-Z0-9_-]{11})$`: the whole input is eleven class
characters (Python `$` also accepts one trailing newline). -/
def bareIdMatch (s : List Char) : Option (List Char) :=
  match take11 s with
  | none => none
  | some (cap, rest) => if rest = [] ∨ rest = ['\n'] then some cap else none

/-- `extract_video_id(url)` (yt_transcript.py lines 25-45): the five
patterns tried in order, first match wins. -/
def extract_video_id (url : List Char) : Option (List Char) :=
  match searchRe greedyVCapture watchMarker url with
  | some v => some v
  | none =>
  match searchRe cap11 shortUrlMarker url with
  | some v => some v
  | none =>
  match searchRe cap11 embedMarker url with
  | some v => some v
  | none =>
  match searchRe cap11 shortsMarker url with
  | some v => some v
  | none => bareIdMatch url

/-- Outcome of `api.fetch(video_id)`: raw transcript data or one of the
three dedicated exception types or any other exception. -/
inductive FetchOutcome where
  | ok (raw : List TranscriptEntry)
  | transcriptsDisabled
  | noTranscriptFound
  | videoUnavailable
  | exn (msg : String)

/-- `fetch_transcript(video_id)` (yt_transcript.py lines 59-99). -/
def fetch_transcript (video_id : String) (outcome : FetchOutcome) : ResultDict :=
  match outcome with
  | .ok raw =>
    { status := "complete", video_id := some video_id, transcript := some raw }
  | .transcriptsDisabled => mkErrorVid "Transcripts disabled by video owner" video_id
  | .noTranscriptFound => mkErrorVid "No transcript available for this video" video_id
  | .videoUnavailable => mkErrorVid "Video not available" video_id
  | .exn msg =>
    if containsStr (pyLower msg) "age" && containsStr (pyLower msg) "restrict" then
      mkErrorVid "Age-restricted content not supported" video_id
    else mkErrorVid (s!"Failed to fetch transcript: {msg}") video_id

/-- Tail of yt-transcript `main()` (lines 147-171): an unextractable video
id exits 1 in both output modes (the captured id is never the empty string,
so `if not video_id:` is exactly the `None` test); otherwise exit by the
fetched status. -/
def main_exit (url : List Char) (outcome : FetchOutcome) (jsonMode : Bool) : Nat :=
  match extract_video_id url with
  | none => EXIT_ERROR
  | some vid =>
    if (fetch_transcript (String.mk vid) outcome).status = "complete" then EXIT_SUCCESS
    else EXIT_ERROR

end YtTranscript

/- ---------------------------------------------------------------------
Full-run models.  `chat`, `edit_image` and `generate_image_streaming` call
`load_cookies()` *before* their `try:` block, and `load_cookies` catches
only `json.JSONDecodeError`, so an `OSError` or `UnicodeDecodeError` from
`COOKIE_FILE.read_text()` escapes the operation uncaught; likewise a raise
from `await client.close()` in the `finally` clause replaces the returned
dictionary and propagates.  The `*World` records extend the `*Env` records
with these two raise paths: `cookieRead` is the outcome of the cookie-file
read (`.ok` carrying what `load_cookies` returns, including `none` for a
missing file or a JSON decode failure), and `close` the outcome of the
`finally` close, consulted exactly when the `try` block was entered (the
`GeminiClient(...)` constructor only stores fields, so `'client' in
locals()` holds whenever the guards passed).  `fetch_transcript` has no
code outside its `try`/`except` chain and needs no wrapper. -/

/-- External world of a full `chat` run. -/
structure Geminipro.ChatWorld where
  webapiInstalled : Bool
  cookieRead : Step (Option PyDict)
  clientInit : Step Unit
  generate : Step Geminipro.GemResponse
  close : Step Unit

/-- A full run of `chat` (geminipro.py lines 84-123): `.error e` is an
exception propagating to the caller (cookie-file read before the `try`, or
the `finally` close), `.ok r` the returned dictionary; past its guards the
`try` body is exactly `chat`. -/
def Geminipro.chat_run (w : Geminipro.ChatWorld) (show_thoughts : Bool) :
    Except PyExc ResultDict :=
  if !w.webapiInstalled then
    .ok (mkError "gemini-webapi not installed. Run: pip install gemini-webapi")
  else
    match w.cookieRead with
    | .raise e => .error e
    | .ok cookies =>
      if pyFalsy cookies then .ok (mkError "No cookies. Run: geminipro --setup")
      else if (pyGet "Secure_1PSID" (cookies.getD [])).isNone then
        .ok (mkError "Invalid cookies. Run: geminipro --setup")
      else
        match w.close with
        | .raise e => .error e
        | .ok _ =>
          .ok (Geminipro.chat ⟨w.webapiInstalled, cookies, w.clientInit, w.generate⟩ show_thoughts)

/-- External world of a full `edit_image` run. -/
structure Nanobanana.EditWorld where
  webapiInstalled : Bool
  input_image : String
  inputExists : Bool
  cookieRead : Step (Option PyDict)
  clientInit : Step Unit
  generate : Step Nanobanana.EditResponse
  save : Step Unit
  close : Step Unit

/-- A full run of `edit_image` (nanobanana.py lines 212-272); past its
guards the `try` body is exactly `edit_image`. -/
def Nanobanana.edit_image_run (w : Nanobanana.EditWorld) (output_dir filename : String) :
    Except PyExc ResultDict :=
  if !w.webapiInstalled then
    .ok (mkError "gemini-webapi not installed. Run: pip install gemini-webapi")
  else if !w.inputExists then
    .ok (mkError ("Input image not found: " ++ w.input_image))
  else
    match w.cookieRead with
    | .raise e => .error e
    | .ok cookies =>
      if pyFalsy cookies then .ok (mkError "No cookies. Run: nanobanana --setup")
      else if (pyGet "Secure_1PSID" (cookies.getD [])).isNone then
        .ok (mkError "Invalid cookies. Run: nanobanana --setup")
      else
        match w.close with
        | .raise e => .error e
        | .ok _ =>
          .ok (Nanobanana.edit_image
            ⟨w.webapiInstalled, w.input_image, w.inputExists, cookies, w.clientInit,
              w.generate, w.save⟩ output_dir filename)

/-- External world of a full `generate_image_streaming` run. -/
structure Nanobanana.GenWorld where
  webapiInstalled : Bool
  cookieRead : Step (Option PyDict)
  clientInit : Step Unit
  http : Step Nanobanana.StreamResp
  download : Step Nat
  close : Step Unit

/-- A full run of `generate_image_streaming` (nanobanana.py lines 275-402);
past its guards the `try` body is exactly `generate_image_streaming`. -/
def Nanobanana.generate_image_streaming_run (w : Nanobanana.GenWorld)
    (loads : List Char → Option JVal) (output_dir filename : String) (timeout : Nat) :
    Except PyExc ResultDict :=
  if !w.webapiInstalled then
    .ok (mkError "gemini-webapi not installed. Run: pip install gemini-webapi")
  else
    match w.cookieRead with
    | .raise e => .error e
    | .ok cookies =>
      if pyFalsy cookies then .ok (mkError "No cookies. Run: nanobanana --setup")
      else if (pyGet "Secure_1PSID" (cookies.getD [])).isNone then
        .ok (mkError "Invalid cookies. Run: nanobanana --setup")
      else
        match w.close with
        | .raise e => .error e
        | .ok _ =>
          .ok (Nanobanana.generate_image_streaming
            ⟨w.webapiInstalled, cookies, w.clientInit, w.http, w.download⟩
            loads output_dir filename timeout)

/-- The field-presence invariant of claim C1, for one result dictionary and
the presence bit of its operation's success payload field. -/
def resInv (r : ResultDict) (payloadPresent : Bool) : Prop :=
  (r.status = "complete" ∨ r.status = "error") ∧
  (r.error.isSome = true ↔ r.status = "error") ∧
  (payloadPresent = true ↔ r.status = "complete")

/- ---------------------------------------------------------------------
Helper lemmas.
--------------------------------------------------------------------- -/

theorem drop_append_len (a b : List Char) : (a ++ b).drop a.length = b := by
  induction a with
  | nil => rfl
  | cons c cs ih => simpa using ih

theorem litMatch_append (p r : List Char) : litMatch p (p ++ r) = some r := by
  induction p with
  | nil => rfl
  | cons c cs ih => simp [litMatch, ih]

theorem litMatch_eq {p s r : List Char} (h : litMatch p s = some r) : s = p ++ r := by
  induction p generalizing s with
  | nil => simpa [litMatch] using h
  | cons c cs ih =>
    cases s with
    | nil => simp [litMatch] at h
    | cons d ds =>
      simp only [litMatch] at h
      split at h
      · next heq => simp [heq, ih h]
      · exact absurd h (by simp)

theorem containsSub_nil_needle (hay : List Char) : containsSub hay [] = true := by
  cases hay <;> simp [containsSub, litMatch]

theorem containsSub_mid (pre needle post : List Char) :
    containsSub (pre ++ (needle ++ post)) needle = true := by
  induction pre with
  | nil =>
    cases needle with
    | nil => simpa using containsSub_nil_needle post
    | cons n ns =>
      have h1 : litMatch (n :: ns) ((n :: ns) ++ post) = some post := litMatch_append _ _
      simp [containsSub, h1]
      exact Or.inl (by rw [← List.cons_append, h1]; rfl)
  | cons c cs ih => simp [containsSub, ih]

theorem mem_concatAll {α : Type} {a : α} {ls : List (List α)} :
    a ∈ concatAll ls ↔ ∃ l ∈ ls, a ∈ l := by
  induction ls with
  | nil => simp [concatAll]
  | cons l ls ih => simp [concatAll, ih]

/- ---------------------------------------------------------------------
Claims C7, C5, C4, C9.
--------------------------------------------------------------------- -/

/-- C7: `unpack_nested_json` and `find_image_urls_recursive` terminate on
every input (they are total Lean functions by construction), and the depth
caps behave as claimed: `unpack_nested_json` returns its argument unchanged
once depth exceeds 10, and `find_image_urls_recursive` returns the empty
list once depth exceeds 30. -/
theorem C7_depth_caps :
    (∀ (loads : List Char → Option JVal) (obj : JVal) (depth : Nat), depth > 10 →
      Nanobanana.unpack_nested_json loads obj depth = obj) ∧
    (∀ (obj : JVal) (depth : Nat), depth > 30 →
      Nanobanana.find_image_urls_recursive obj depth = []) := by
  constructor
  · intro loads obj depth h
    unfold Nanobanana.unpack_nested_json
    have hf : 11 - depth = 0 := by omega
    rw [hf]
    cases obj <;> rfl
  · intro obj depth h
    unfold Nanobanana.find_image_urls_recursive
    have hf : 31 - depth = 0 := by omega
    rw [hf]
    cases obj <;> rfl

theorem C7_depth_caps_witness :
    (11 > 10 ∧ Nanobanana.unpack_nested_json json_loads (.str "[1]".data) 11 = .str "[1]".data) ∧
    (31 > 30 ∧ Nanobanana.find_image_urls_recursive (.str "https://x".data) 31 = []) :=
  ⟨⟨by decide, C7_depth_caps.1 json_loads _ 11 (by decide)⟩,
   ⟨by decide, C7_depth_caps.2 _ 31 (by decide)⟩⟩

/-- C5 (counterexample): the claim says a line of
`parse_streaming_response`'s input that fails to JSON-parse has its raw
text retained in the result; in fact the `except json.JSONDecodeError:
pass` drops it.  On input `"hello"`, whose single line fails to parse, the
result is empty. -/
theorem C5_counterexample :
    json_loads "hello".data = none ∧
    Nanobanana.parse_streaming_response json_loads "hello".data = [] := ⟨rfl, rfl⟩

/-- C5 (amended): `unpack_nested_json` does return a string argument
unchanged whenever `json.loads` fails on it, but `parse_streaming_response`
drops (rather than retains) any line that fails to parse, both in the
digit-prefixed and in the plain position. -/
theorem C5_parse_fallback_amended :
    (∀ (loads : List Char → Option JVal) (s : List Char) (depth : Nat), loads s = none →
      Nanobanana.unpack_nested_json loads (.str s) depth = .str s) ∧
    (∀ (loads : List Char → Option JVal) (line : List Char) (rest : List (List Char)),
      isDigitL (pyStrip line) = false → loads (pyStrip line) = none →
      Nanobanana.psrLoop loads (line :: rest) = Nanobanana.psrLoop loads rest) ∧
    (∀ (loads : List Char → Option JVal) (line next : List Char) (rest : List (List Char)),
      isDigitL (pyStrip line) = true → loads next = none →
      Nanobanana.psrLoop loads (line :: next :: rest) = Nanobanana.psrLoop loads rest) := by
  refine ⟨?_, ?_, ?_⟩
  · intro loads s depth h
    unfold Nanobanana.unpack_nested_json
    cases hf : 11 - depth with
    | zero => rfl
    | succ n =>
      simp only [Nanobanana.unpackGo]
      split
      · rfl
      · split
        · rw [h]
        · rfl
  · intro loads line rest h1 h2
    rw [Nanobanana.psrLoop.eq_def]
    dsimp only
    simp [h1, h2]
  · intro loads line next rest h1 h2
    rw [Nanobanana.psrLoop.eq_def]
    dsimp only
    simp [h1, h2]

theorem C5_parse_fallback_amended_witness :
    (json_loads "nope".data = none ∧
      Nanobanana.unpack_nested_json json_loads (.str "nope".data) 0 = .str "nope".data) ∧
    (isDigitL (pyStrip "raw".data) = false ∧ json_loads (pyStrip "raw".data) = none ∧
      Nanobanana.psrLoop json_loads ["raw".data] = Nanobanana.psrLoop json_loads []) ∧
    (isDigitL (pyStrip "12".data) = true ∧ json_loads "bad".data = none ∧
      Nanobanana.psrLoop json_loads ["12".data, "bad".data] = Nanobanana.psrLoop json_loads []) :=
  ⟨⟨by rfl, C5_parse_fallback_amended.1 json_loads "nope".data 0 (by rfl)⟩,
   ⟨by decide, by rfl, C5_parse_fallback_amended.2.1 json_loads "raw".data [] (by decide) (by rfl)⟩,
   ⟨by decide, by rfl, C5_parse_fallback_amended.2.2 json_loads "12".data "bad".data [] (by decide) (by rfl)⟩⟩

/-- C4: `parse_streaming_response` strips the leading XSSI marker when
present (and only acts on the raw data otherwise), splits into
newline-separated lines, and treats an all-digit line as a length prefix:
the digit line is skipped, the immediately following line is JSON-parsed,
and both lines are consumed before the loop continues (a trailing digit
line with no following line produces nothing). -/
theorem C4_parse_streaming_structure :
    (∀ (loads : List Char → Option JVal) (s : List Char),
      Nanobanana.parse_streaming_response loads (Nanobanana.xssiChars ++ s) =
        Nanobanana.psrLoop loads (splitNl (pyStrip s))) ∧
    (∀ (loads : List Char → Option JVal) (data : List Char),
      (litMatch Nanobanana.xssiChars data).isSome = false →
      Nanobanana.parse_streaming_response loads data =
        Nanobanana.psrLoop loads (splitNl (pyStrip data))) ∧
    (∀ (loads : List Char → Option JVal) (line next : List Char) (rest : List (List Char)),
      isDigitL (pyStrip line) = true →
      Nanobanana.psrLoop loads (line :: next :: rest) =
        (match loads next with
         | some parsed => Nanobanana.unpack_nested_json loads parsed 0 :: Nanobanana.psrLoop loads rest
         | none => Nanobanana.psrLoop loads rest)) ∧
    (∀ (loads : List Char → Option JVal) (line : List Char),
      isDigitL (pyStrip line) = true → Nanobanana.psrLoop loads [line] = []) := by
  refine ⟨?_, ?_, ?_, ?_⟩
  · intro loads s
    unfold Nanobanana.parse_streaming_response
    rw [litMatch_append]
    have h4 : Nanobanana.xssiChars.length = 4 := rfl
    simp only [Option.isSome_some, if_true]
    rw [← h4, drop_append_len]
  · intro loads data h
    unfold Nanobanana.parse_streaming_response
    rw [h]
    simp
  · intro loads line next rest h
    rw [Nanobanana.psrLoop.eq_def]
    dsimp only
    simp [h]
  · intro loads line h
    rw [Nanobanana.psrLoop.eq_def]
    dsimp only
    simp [h]

theorem C4_parse_streaming_structure_witness :
    (isDigitL (pyStrip "7".data) = true ∧
      Nanobanana.psrLoop json_loads ["7".data, "[1]".data] =
        [Nanobanana.unpack_nested_json json_loads (.arr [.num 1]) 0] ∧
      Nanobanana.psrLoop json_loads ["7".data] = []) ∧
    (litMatch Nanobanana.xssiChars "ab".data).isSome = false ∧
    Nanobanana.parse_streaming_response json_loads "ab".data =
      Nanobanana.psrLoop json_loads (splitNl (pyStrip "ab".data)) :=
  ⟨⟨by decide,
    by rw [C4_parse_streaming_structure.2.2.1 json_loads "7".data "[1]".data [] (by decide)]; rfl,
    C4_parse_streaming_structure.2.2.2 json_loads "7".data (by decide)⟩,
   by decide,
   C4_parse_streaming_structure.2.1 json_loads "ab".data (by decide)⟩

/-- C9 (counterexample): the claim restricts the special age-restriction
result to exception messages containing the string `"age restricted"`; the
code instead tests `"age"` and `"restrict"` separately, so the message
`"restricted age"` (which does not contain `"age restricted"`) also
triggers the special result. -/
theorem C9_counterexample :
    containsStr (pyLower "restricted age") "age restricted" = false ∧
    containsStr "restricted age" "age restricted" = false ∧
    YtTranscript.fetch_transcript "dQw4w9WgXcQ" (.exn "restricted age") =
      mkErrorVid "Age-restricted content not supported" "dQw4w9WgXcQ" :=
  ⟨by decide, by decide, by rfl⟩

/-- C9 (amended): the special age-restriction result is produced exactly
for caught generic exceptions whose lowercased message contains both
`"age"` and `"restrict"` as substrings; every other generic exception gets
`"Failed to fetch transcript: <message>"`, and the three dedicated
exception types get their own fixed messages. -/
theorem C9_age_detection_amended :
    ∀ (vid msg : String) (raw : List TranscriptEntry),
    (YtTranscript.fetch_transcript vid (.exn msg) =
      (if containsStr (pyLower msg) "age" && containsStr (pyLower msg) "restrict" then
        mkErrorVid "Age-restricted content not supported" vid
      else mkErrorVid (s!"Failed to fetch transcript: {msg}") vid)) ∧
    YtTranscript.fetch_transcript vid .transcriptsDisabled =
      mkErrorVid "Transcripts disabled by video owner" vid ∧
    YtTranscript.fetch_transcript vid .noTranscriptFound =
      mkErrorVid "No transcript available for this video" vid ∧
    YtTranscript.fetch_transcript vid .videoUnavailable =
      mkErrorVid "Video not available" vid ∧
    YtTranscript.fetch_transcript vid (.ok raw) =
      { status := "complete", video_id := some vid, transcript := some raw } :=
  fun vid msg raw => ⟨rfl, rfl, rfl, rfl, rfl⟩

/- ---------------------------------------------------------------------
Claim C8: setup_cookies.
--------------------------------------------------------------------- -/

theorem pyGet_pySet_same (k v : String) (d : PyDict) : pyGet k (pySet k v d) = some v := by
  induction d with
  | nil => simp [pySet, pyGet]
  | cons kv rest ih =>
    obtain ⟨k2, w⟩ := kv
    by_cases h : k2 = k
    · subst h
      simp [pySet, pyGet]
    · simp [pySet, pyGet, h, ih]

theorem pyGet_pySet_other (k k2 v : String) (d : PyDict) (h : k2 ≠ k) :
    pyGet k (pySet k2 v d) = pyGet k d := by
  induction d with
  | nil => simp [pySet, pyGet, h]
  | cons kv rest ih =>
    obtain ⟨k3, w⟩ := kv
    by_cases h3 : k3 = k2
    · subst h3
      simp [pySet, pyGet, h]
    · have h5 : ¬(k = k2) := fun he => h he.symm
      by_cases h4 : k3 = k
      · simp [pySet, pyGet, h3, h4, h5]
      · simp [pySet, pyGet, h3, h4, h5, ih]

theorem mem_pySet {kv : String × String} (k v : String) (d : PyDict)
    (h : kv ∈ pySet k v d) : kv = (k, v) ∨ kv ∈ d := by
  induction d with
  | nil => simpa [pySet] using h
  | cons kv2 rest ih =>
    obtain ⟨k2, w⟩ := kv2
    by_cases h2 : k2 = k
    · simp only [pySet, h2, if_true] at h
      rcases List.mem_cons.1 h with h3 | h3
      · exact Or.inl h3
      · exact Or.inr (List.mem_cons_of_mem _ h3)
    · simp only [pySet, h2, if_false] at h
      rcases List.mem_cons.1 h with h3 | h3
      · exact Or.inr (h3 ▸ List.mem_cons_self _ _)
      · rcases ih h3 with h4 | h4
        · exact Or.inl h4
        · exact Or.inr (List.mem_cons_of_mem _ h4)

theorem mem_collectJar {kv : String × String} (jar : List Nanobanana.BrowserCookie)
    (acc : PyDict) (h : kv ∈ Nanobanana.collectJar jar acc) :
    kv ∈ acc ∨ kv.1 = "Secure_1PSID" ∨ kv.1 = "Secure_1PSIDTS" := by
  induction jar generalizing acc with
  | nil => exact Or.inl h
  | cons c rest ih =>
    by_cases h1 : c.name = "__Secure-1PSID"
    · rw [show Nanobanana.collectJar (c :: rest) acc =
          Nanobanana.collectJar rest (pySet "Secure_1PSID" c.value acc) from by
        simp [Nanobanana.collectJar, h1]] at h
      rcases ih _ h with h2 | h2
      · rcases mem_pySet _ _ _ h2 with h3 | h3
        · exact Or.inr (Or.inl (by rw [h3]))
        · exact Or.inl h3
      · exact Or.inr h2
    · by_cases h2 : c.name = "__Secure-1PSIDTS"
      · rw [show Nanobanana.collectJar (c :: rest) acc =
            Nanobanana.collectJar rest (pySet "Secure_1PSIDTS" c.value acc) from by
          simp [Nanobanana.collectJar, h1, h2]] at h
        rcases ih _ h with h3 | h3
        · rcases mem_pySet _ _ _ h3 with h4 | h4
          · exact Or.inr (Or.inr (by rw [h4]))
          · exact Or.inl h4
        · exact Or.inr h3
      · rw [show Nanobanana.collectJar (c :: rest) acc = Nanobanana.collectJar rest acc from by
          simp [Nanobanana.collectJar, h1, h2]] at h
        exact ih _ h

theorem collectJar_psidts (jar : List Nanobanana.BrowserCookie) :
    ∀ acc : PyDict,
    (pyGet "Secure_1PSIDTS" (Nanobanana.collectJar jar acc)).isSome = true ↔
      ((pyGet "Secure_1PSIDTS" acc).isSome = true ∨ ∃ c ∈ jar, c.name = "__Secure-1PSIDTS") := by
  induction jar with
  | nil => intro acc; simp [Nanobanana.collectJar]
  | cons c rest ih =>
    intro acc
    by_cases h1 : c.name = "__Secure-1PSID"
    · rw [show Nanobanana.collectJar (c :: rest) acc =
          Nanobanana.collectJar rest (pySet "Secure_1PSID" c.value acc) from by
        simp [Nanobanana.collectJar, h1]]
      rw [ih, pyGet_pySet_other _ _ _ _ (by decide)]
      constructor
      · rintro (h2 | ⟨c2, hc2, hn⟩)
        · exact Or.inl h2
        · exact Or.inr ⟨c2, List.mem_cons_of_mem _ hc2, hn⟩
      · rintro (h2 | ⟨c2, hc2, hn⟩)
        · exact Or.inl h2
        · rcases List.mem_cons.1 hc2 with h3 | h3
          · subst h3
            rw [h1] at hn
            exact absurd hn (by decide)
          · exact Or.inr ⟨c2, h3, hn⟩
    · by_cases h2 : c.name = "__Secure-1PSIDTS"
      · rw [show Nanobanana.collectJar (c :: rest) acc =
            Nanobanana.collectJar rest (pySet "Secure_1PSIDTS" c.value acc) from by
          simp [Nanobanana.collectJar, h1, h2]]
        rw [ih, pyGet_pySet_same]
        simp only [Option.isSome_some, true_or, true_iff]
        exact Or.inr ⟨c, List.mem_cons_self c rest, h2⟩
      · rw [show Nanobanana.collectJar (c :: rest) acc = Nanobanana.collectJar rest acc from by
          simp [Nanobanana.collectJar, h1, h2]]
        rw [ih]
        constructor
        · rintro (h3 | ⟨c2, hc2, hn⟩)
          · exact Or.inl h3
          · exact Or.inr ⟨c2, List.mem_cons_of_mem _ hc2, hn⟩
        · rintro (h3 | ⟨c2, hc2, hn⟩)
          · exact Or.inl h3
          · rcases List.mem_cons.1 hc2 with h4 | h4
            · subst h4
              exact absurd hn h2
            · exact Or.inr ⟨c2, h4, hn⟩

/-- C8 (counterexample): a browser jar holding only `__Secure-1PSID` makes
`--setup` succeed (the code only warns about the missing `__Secure-1PSIDTS`),
yet the written cookie file holds a single cookie value, not two. -/
theorem C8_counterexample :
    Nanobanana.setup_cookies ⟨true, .ok [⟨"__Secure-1PSID", "sid"⟩]⟩ =
      some ⟨[("Secure_1PSID", "sid")], 0o600⟩ ∧
    pyGet "Secure_1PSIDTS" [("Secure_1PSID", "sid")] = none := ⟨rfl, rfl⟩

/-- C8 (amended): after every successful `--setup` run the cookie file has
permissions `0o600`, holds `Secure_1PSID`, holds no key other than
`Secure_1PSID` and `Secure_1PSIDTS`, and holds `Secure_1PSIDTS` exactly when
the browser jar contained a `__Secure-1PSIDTS` cookie (so it may hold one
value instead of two). -/
theorem C8_setup_amended :
    ∀ (env : Nanobanana.SetupEnv) (f : Nanobanana.CookieFile),
    Nanobanana.setup_cookies env = some f →
    f.mode = 0o600 ∧
    (pyGet "Secure_1PSID" f.contents).isSome = true ∧
    (∀ kv ∈ f.contents, kv.1 = "Secure_1PSID" ∨ kv.1 = "Secure_1PSIDTS") ∧
    (∀ jar, env.jar = .ok jar →
      ((pyGet "Secure_1PSIDTS" f.contents).isSome = true ↔
        ∃ c ∈ jar, c.name = "__Secure-1PSIDTS")) := by
  intro env f h
  obtain ⟨inst, jarStep⟩ := env
  cases inst with
  | false => simp [Nanobanana.setup_cookies] at h
  | true =>
    cases jarStep with
    | raise e => simp [Nanobanana.setup_cookies] at h
    | ok jar =>
      rw [show Nanobanana.setup_cookies ⟨true, .ok jar⟩ =
          (if (pyGet "Secure_1PSID" (Nanobanana.collectJar jar [])).isNone then none
           else some ⟨Nanobanana.collectJar jar [], 0o600⟩) from rfl] at h
      by_cases hpsid : (pyGet "Secure_1PSID" (Nanobanana.collectJar jar [])).isNone
      · rw [if_pos hpsid] at h
        cases h
      · rw [if_neg hpsid] at h
        injection h with hf
        subst hf
        refine ⟨rfl, ?_, ?_, ?_⟩
        · cases hx : pyGet "Secure_1PSID" (Nanobanana.collectJar jar []) with
          | none => exact absurd (by rw [hx]; rfl) hpsid
          | some v => rfl
        · intro kv hkv
          rcases mem_collectJar jar [] hkv with h2 | h2
          · exact absurd h2 (List.not_mem_nil kv)
          · exact h2
        · intro jar2 hjar2
          injection hjar2 with hj
          subst hj
          rw [collectJar_psidts]
          simp [pyGet]

theorem C8_setup_amended_witness :
    Nanobanana.setup_cookies ⟨true, .ok [⟨"__Secure-1PSID", "a"⟩, ⟨"__Secure-1PSIDTS", "b"⟩]⟩ =
      some ⟨[("Secure_1PSID", "a"), ("Secure_1PSIDTS", "b")], 0o600⟩ ∧
    ((⟨[("Secure_1PSID", "a"), ("Secure_1PSIDTS", "b")], 0o600⟩ : Nanobanana.CookieFile).mode = 0o600 ∧
      (pyGet "Secure_1PSID" [("Secure_1PSID", "a"), ("Secure_1PSIDTS", "b")]).isSome = true) :=
  ⟨rfl, by
    have h := C8_setup_amended ⟨true, .ok [⟨"__Secure-1PSID", "a"⟩, ⟨"__Secure-1PSIDTS", "b"⟩]⟩
      ⟨[("Secure_1PSID", "a"), ("Secure_1PSIDTS", "b")], 0o600⟩ rfl
    exact ⟨h.1, h.2.1⟩⟩

/- ---------------------------------------------------------------------
Claim C1: status determines field presence.
--------------------------------------------------------------------- -/

theorem resInv_mkError (m : String) : resInv (mkError m) false := by
  refine ⟨Or.inr rfl, ?_, ?_⟩ <;> simp [mkError]

theorem resInv_mkErrorVid (m v : String) : resInv (mkErrorVid m v) false := by
  refine ⟨Or.inr rfl, ?_, ?_⟩ <;> simp [mkErrorVid]

theorem resInv_complete_text (t : String) (th : Option String) :
    resInv { status := "complete", text := some t, thoughts := th } true := by
  refine ⟨Or.inl rfl, ?_, ?_⟩ <;> simp

theorem resInv_complete_file (p : String) :
    resInv { status := "complete", filepath := some p } true := by
  refine ⟨Or.inl rfl, ?_, ?_⟩ <;> simp

theorem resInv_complete_transcript (v : String) (raw : List TranscriptEntry) :
    resInv { status := "complete", video_id := some v, transcript := some raw } true := by
  refine ⟨Or.inl rfl, ?_, ?_⟩ <;> simp

theorem chat_shape (env : Geminipro.ChatEnv) (st : Bool) :
    (∃ m, Geminipro.chat env st = mkError m) ∨
    (∃ t th, Geminipro.chat env st = { status := "complete", text := some t, thoughts := th }) := by
  unfold Geminipro.chat
  dsimp only
  repeat' split
  all_goals first
    | exact Or.inl ⟨_, rfl⟩
    | exact Or.inr ⟨_, _, rfl⟩

theorem edit_shape (env : Nanobanana.EditEnv) (od fn : String) :
    (∃ m, Nanobanana.edit_image env od fn = mkError m) ∨
    Nanobanana.edit_image env od fn =
      { status := "complete", filepath := some (od ++ "/" ++ fn ++ ".png") } := by
  unfold Nanobanana.edit_image
  repeat' split
  all_goals first
    | exact Or.inl ⟨_, rfl⟩
    | exact Or.inr rfl

theorem gen_shape (env : Nanobanana.GenEnv) (loads : List Char → Option JVal)
    (od fn : String) (t : Nat) :
    (∃ m, Nanobanana.generate_image_streaming env loads od fn t = mkError m) ∨
    Nanobanana.generate_image_streaming env loads od fn t =
      { status := "complete", filepath := some (od ++ "/" ++ fn ++ ".png") } := by
  unfold Nanobanana.generate_image_streaming Nanobanana.genExc
  dsimp only
  repeat' split
  all_goals first
    | exact Or.inl ⟨_, rfl⟩
    | exact Or.inr rfl

/-- C1: for every environment, the results of `chat`, `edit_image`,
`generate_image_streaming` and `fetch_transcript` have status `"complete"`
or `"error"`, carry an `error` field exactly when the status is `"error"`,
and carry their success payload field (`text`, `filepath`, `filepath`,
`transcript` respectively) exactly when the status is `"complete"`. -/
theorem C1_status_determines_fields :
    (∀ (env : Geminipro.ChatEnv) (st : Bool),
      resInv (Geminipro.chat env st) (Geminipro.chat env st).text.isSome) ∧
    (∀ (env : Nanobanana.EditEnv) (od fn : String),
      resInv (Nanobanana.edit_image env od fn) (Nanobanana.edit_image env od fn).filepath.isSome) ∧
    (∀ (env : Nanobanana.GenEnv) (loads : List Char → Option JVal) (od fn : String) (t : Nat),
      resInv (Nanobanana.generate_image_streaming env loads od fn t)
        (Nanobanana.generate_image_streaming env loads od fn t).filepath.isSome) ∧
    (∀ (vid : String) (oc : YtTranscript.FetchOutcome),
      resInv (YtTranscript.fetch_transcript vid oc)
        (YtTranscript.fetch_transcript vid oc).transcript.isSome) := by
  refine ⟨?_, ?_, ?_, ?_⟩
  · intro env st
    rcases chat_shape env st with ⟨m, hm⟩ | ⟨t, th, hm⟩
    · rw [hm]; exact resInv_mkError m
    · rw [hm]; exact resInv_complete_text t th
  · intro env od fn
    rcases edit_shape env od fn with ⟨m, hm⟩ | hm
    · rw [hm]; exact resInv_mkError m
    · rw [hm]; exact resInv_complete_file _
  · intro env loads od fn t
    rcases gen_shape env loads od fn t with ⟨m, hm⟩ | hm
    · rw [hm]; exact resInv_mkError m
    · rw [hm]; exact resInv_complete_file _
  · intro vid oc
    cases oc with
    | ok raw => exact resInv_complete_transcript vid raw
    | transcriptsDisabled => exact resInv_mkErrorVid _ _
    | noTranscriptFound => exact resInv_mkErrorVid _ _
    | videoUnavailable => exact resInv_mkErrorVid _ _
    | exn msg =>
      by_cases h : (containsStr (pyLower msg) "age" && containsStr (pyLower msg) "restrict") = true
      · have hm : YtTranscript.fetch_transcript vid (.exn msg) =
            mkErrorVid "Age-restricted content not supported" vid := by
          simp [YtTranscript.fetch_transcript, h]
        rw [hm]; exact resInv_mkErrorVid _ _
      · have hm : YtTranscript.fetch_transcript vid (.exn msg) =
            mkErrorVid (s!"Failed to fetch transcript: {msg}") vid := by
          simp only [YtTranscript.fetch_transcript]
          rw [if_neg h]
        rw [hm]; exact resInv_mkErrorVid _ _

/- ---------------------------------------------------------------------
Claims C2 and C3.
--------------------------------------------------------------------- -/

theorem mainExit_complete (j : Bool) (r : ResultDict) (h : r.status = "complete") :
    mainExitFromResult j r = EXIT_SUCCESS := by
  cases j <;> simp [mainExitFromResult, h, EXIT_SUCCESS, EXIT_ERROR]

theorem mainExit_error (j : Bool) (r : ResultDict) (h : r.status = "error") :
    mainExitFromResult j r = EXIT_ERROR := by
  cases j <;> simp [mainExitFromResult, h, EXIT_SUCCESS, EXIT_ERROR]

/-- C2: every invocation that reaches result output exits 0 when the result
status is `"complete"` and 1 when it is `"error"` (and 1 for an invalid
yt-transcript URL), in both `--json` and plain output modes. -/
theorem C2_exit_codes : ∀ jsonMode : Bool,
    (∀ (env : Geminipro.ChatEnv) (st : Bool),
      ((Geminipro.chat env st).status = "complete" →
        Geminipro.main_exit jsonMode env st = EXIT_SUCCESS) ∧
      ((Geminipro.chat env st).status = "error" →
        Geminipro.main_exit jsonMode env st = EXIT_ERROR)) ∧
    (∀ (editMode : Bool) (eenv : Nanobanana.EditEnv) (genv : Nanobanana.GenEnv)
        (loads : List Char → Option JVal) (od fn : String) (t : Nat),
      ((if editMode then Nanobanana.edit_image eenv od fn
        else Nanobanana.generate_image_streaming genv loads od fn t).status = "complete" →
        Nanobanana.main_exit jsonMode editMode eenv genv loads od fn t = EXIT_SUCCESS) ∧
      ((if editMode then Nanobanana.edit_image eenv od fn
        else Nanobanana.generate_image_streaming genv loads od fn t).status = "error" →
        Nanobanana.main_exit jsonMode editMode eenv genv loads od fn t = EXIT_ERROR)) ∧
    (∀ (url : List Char) (oc : YtTranscript.FetchOutcome),
      (YtTranscript.extract_video_id url = none →
        YtTranscript.main_exit url oc jsonMode = EXIT_ERROR) ∧
      (∀ vid, YtTranscript.extract_video_id url = some vid →
        ((YtTranscript.fetch_transcript (String.mk vid) oc).status = "complete" →
          YtTranscript.main_exit url oc jsonMode = EXIT_SUCCESS) ∧
        ((YtTranscript.fetch_transcript (String.mk vid) oc).status = "error" →
          YtTranscript.main_exit url oc jsonMode = EXIT_ERROR))) := by
  intro jsonMode
  refine ⟨?_, ?_, ?_⟩
  · intro env st
    exact ⟨fun h => mainExit_complete _ _ h, fun h => mainExit_error _ _ h⟩
  · intro editMode eenv genv loads od fn t
    exact ⟨fun h => mainExit_complete _ _ h, fun h => mainExit_error _ _ h⟩
  · intro url oc
    constructor
    · intro h
      simp [YtTranscript.main_exit, h]
    · intro vid h
      constructor
      · intro hc
        simp [YtTranscript.main_exit, h, hc]
      · intro he
        simp [YtTranscript.main_exit, h, he]

theorem C2_exit_codes_witness :
    ((Geminipro.chat ⟨true, some [("Secure_1PSID", "x")], .ok (), .ok ⟨"hi", []⟩⟩ false).status =
        "complete" ∧
      Geminipro.main_exit true ⟨true, some [("Secure_1PSID", "x")], .ok (), .ok ⟨"hi", []⟩⟩ false =
        EXIT_SUCCESS) ∧
    (YtTranscript.extract_video_id "zz".data = none ∧
      YtTranscript.main_exit "zz".data (.exn "boom") true = EXIT_ERROR) :=
  ⟨⟨rfl, ((C2_exit_codes true).1 _ false).1 rfl⟩,
   ⟨by decide, ((C2_exit_codes true).2.2 "zz".data (.exn "boom")).1 (by decide)⟩⟩

/-- C3 (counterexample): the claim says no exception propagates to the
caller of the async operations; but `load_cookies()` runs before the `try`
in `chat` and only catches `json.JSONDecodeError`, so a permission error
from the cookie-file read propagates; and a raise from `await
client.close()` in the `finally` clause replaces an already-converted error
dictionary and propagates. -/
theorem C3_counterexample :
    Geminipro.chat_run
      ⟨true, .raise (.other "Permission denied"), .ok (), .ok ⟨"", []⟩, .ok ()⟩ false =
      .error (.other "Permission denied") ∧
    Geminipro.chat_run
      ⟨true, .ok (some [("Secure_1PSID", "x")]), .ok (), .raise (.other "boom"),
        .raise (.other "Event loop is closed")⟩ false =
      .error (.other "Event loop is closed") := ⟨rfl, rfl⟩

/-- C3 (amended): every exception raised inside the `try` block of the four
async operations is caught at its top level and converted into a
`{"status": "error", "error": <message>}` dictionary (for
`generate_image_streaming` through its timeout-aware handler `genExc`), and
each external outcome is consumed at most once, so no retry is attempted;
however an exception escaping the cookie-file read of `load_cookies()` —
which runs before the `try` and catches only `json.JSONDecodeError` — or
one raised by `await client.close()` in the `finally` clause propagates to
the caller uncaught; `fetch_transcript`, whose body lies entirely inside
its `try`/`except` chain, converts every one of its exception cases. -/
theorem C3_exceptions_amended :
    (∀ (ck : PyDict) (g : Step Geminipro.GemResponse) (st : Bool) (e : PyExc),
      pyFalsy (some ck) = false → (pyGet "Secure_1PSID" ck).isNone = false →
      Geminipro.chat_run ⟨true, .ok (some ck), .raise e, g, .ok ()⟩ st =
        .ok (mkError (excStr e)) ∧
      Geminipro.chat_run ⟨true, .ok (some ck), .ok (), .raise e, .ok ()⟩ st =
        .ok (mkError (excStr e))) ∧
    (∀ (ck : PyDict) (img : String) (g : Step Nanobanana.EditResponse) (sv : Step Unit)
        (e : PyExc) (od fn : String),
      pyFalsy (some ck) = false → (pyGet "Secure_1PSID" ck).isNone = false →
      Nanobanana.edit_image_run ⟨true, img, true, .ok (some ck), .raise e, g, sv, .ok ()⟩ od fn =
        .ok (mkError (excStr e)) ∧
      Nanobanana.edit_image_run ⟨true, img, true, .ok (some ck), .ok (), .raise e, sv, .ok ()⟩
        od fn = .ok (mkError (excStr e)) ∧
      (∀ (i0 : String) (irest : List String) (txt : String),
        Nanobanana.edit_image_run
          ⟨true, img, true, .ok (some ck), .ok (), .ok ⟨i0 :: irest, txt⟩, .raise e, .ok ()⟩
          od fn = .ok (mkError (excStr e)))) ∧
    (∀ (ck : PyDict) (hs : Step Nanobanana.StreamResp) (dl : Step Nat)
        (loads : List Char → Option JVal) (od fn : String) (t : Nat) (e : PyExc),
      pyFalsy (some ck) = false → (pyGet "Secure_1PSID" ck).isNone = false →
      Nanobanana.generate_image_streaming_run ⟨true, .ok (some ck), .raise e, hs, dl, .ok ()⟩
        loads od fn t = .ok (Nanobanana.genExc t e) ∧
      Nanobanana.generate_image_streaming_run ⟨true, .ok (some ck), .ok (), .raise e, dl, .ok ()⟩
        loads od fn t = .ok (Nanobanana.genExc t e) ∧
      (∀ (reason : String) (chunks : List String),
        (Nanobanana.genFinalUrls loads chunks).isEmpty = false →
        Nanobanana.generate_image_streaming_run
          ⟨true, .ok (some ck), .ok (), .ok ⟨200, reason, chunks⟩, .raise e, .ok ()⟩
          loads od fn t = .ok (Nanobanana.genExc t e))) ∧
    (∀ (vid msg : String),
      (YtTranscript.fetch_transcript vid .transcriptsDisabled).status = "error" ∧
      (YtTranscript.fetch_transcript vid .noTranscriptFound).status = "error" ∧
      (YtTranscript.fetch_transcript vid .videoUnavailable).status = "error" ∧
      (YtTranscript.fetch_transcript vid (.exn msg)).status = "error" ∧
      (YtTranscript.fetch_transcript vid (.exn msg)).error.isSome = true) ∧
    (∀ (e : PyExc) (i : Step Unit) (g : Step Geminipro.GemResponse) (cl : Step Unit) (st : Bool),
      Geminipro.chat_run ⟨true, .raise e, i, g, cl⟩ st = .error e) ∧
    (∀ (ck : PyDict) (i : Step Unit) (g : Step Geminipro.GemResponse) (e : PyExc) (st : Bool),
      pyFalsy (some ck) = false → (pyGet "Secure_1PSID" ck).isNone = false →
      Geminipro.chat_run ⟨true, .ok (some ck), i, g, .raise e⟩ st = .error e) ∧
    (∀ (img : String) (e : PyExc) (i : Step Unit) (g : Step Nanobanana.EditResponse)
        (sv cl : Step Unit) (od fn : String),
      Nanobanana.edit_image_run ⟨true, img, true, .raise e, i, g, sv, cl⟩ od fn = .error e) ∧
    (∀ (ck : PyDict) (img : String) (i : Step Unit) (g : Step Nanobanana.EditResponse)
        (sv : Step Unit) (e : PyExc) (od fn : String),
      pyFalsy (some ck) = false → (pyGet "Secure_1PSID" ck).isNone = false →
      Nanobanana.edit_image_run ⟨true, img, true, .ok (some ck), i, g, sv, .raise e⟩ od fn =
        .error e) ∧
    (∀ (e : PyExc) (i : Step Unit) (hs : Step Nanobanana.StreamResp) (dl : Step Nat)
        (cl : Step Unit) (loads : List Char → Option JVal) (od fn : String) (t : Nat),
      Nanobanana.generate_image_streaming_run ⟨true, .raise e, i, hs, dl, cl⟩ loads od fn t =
        .error e) ∧
    (∀ (ck : PyDict) (i : Step Unit) (hs : Step Nanobanana.StreamResp) (dl : Step Nat)
        (e : PyExc) (loads : List Char → Option JVal) (od fn : String) (t : Nat),
      pyFalsy (some ck) = false → (pyGet "Secure_1PSID" ck).isNone = false →
      Nanobanana.generate_image_streaming_run ⟨true, .ok (some ck), i, hs, dl, .raise e⟩
        loads od fn t = .error e) := by
  refine ⟨?_, ?_, ?_, ?_, ?_, ?_, ?_, ?_, ?_, ?_⟩
  · intro ck g st e h1 h2
    constructor <;>
      simp [Geminipro.chat_run, Geminipro.chat, h1, h2]
  · intro ck img g sv e od fn h1 h2
    refine ⟨?_, ?_, ?_⟩
    · simp [Nanobanana.edit_image_run, Nanobanana.edit_image, h1, h2]
    · simp [Nanobanana.edit_image_run, Nanobanana.edit_image, h1, h2]
    · intro i0 irest txt
      simp [Nanobanana.edit_image_run, Nanobanana.edit_image, h1, h2]
  · intro ck hs dl loads od fn t e h1 h2
    refine ⟨?_, ?_, ?_⟩
    · simp [Nanobanana.generate_image_streaming_run, Nanobanana.generate_image_streaming, h1, h2]
    · simp [Nanobanana.generate_image_streaming_run, Nanobanana.generate_image_streaming, h1, h2]
    · intro reason chunks hurls
      simp [Nanobanana.generate_image_streaming_run, Nanobanana.generate_image_streaming,
        h1, h2, hurls]
  · intro vid msg
    refine ⟨rfl, rfl, rfl, ?_, ?_⟩ <;>
    · by_cases h : (containsStr (pyLower msg) "age" && containsStr (pyLower msg) "restrict") = true
      · simp [YtTranscript.fetch_transcript, h, mkErrorVid]
      · simp only [YtTranscript.fetch_transcript]
        rw [if_neg h]
        simp [mkErrorVid]
  · intro e i g cl st
    rfl
  · intro ck i g e st h1 h2
    simp [Geminipro.chat_run, h1, h2]
  · intro img e i g sv cl od fn
    rfl
  · intro ck img i g sv e od fn h1 h2
    simp [Nanobanana.edit_image_run, h1, h2]
  · intro e i hs dl cl loads od fn t
    rfl
  · intro ck i hs dl e loads od fn t h1 h2
    simp [Nanobanana.generate_image_streaming_run, h1, h2]

theorem C3_exceptions_amended_witness :
    (pyFalsy (some [("Secure_1PSID", "x")]) = false ∧
      (pyGet "Secure_1PSID" [("Secure_1PSID", "x")]).isNone = false ∧
      Geminipro.chat_run
        ⟨true, .ok (some [("Secure_1PSID", "x")]), .ok (), .raise (.other "boom"), .ok ()⟩ false =
        .ok (mkError "boom") ∧
      Geminipro.chat_run
        ⟨true, .ok (some [("Secure_1PSID", "x")]), .ok (), .ok ⟨"", []⟩,
          .raise (.other "closefail")⟩ false = .error (.other "closefail")) ∧
    ((Nanobanana.genFinalUrls json_loads
        ["[\"https://lh3.googleusercontent.com/gg-dl/a\"]"]).isEmpty = false ∧
      Nanobanana.generate_image_streaming_run
        ⟨true, .ok (some [("Secure_1PSID", "x")]), .ok (),
          .ok ⟨200, "OK", ["[\"https://lh3.googleusercontent.com/gg-dl/a\"]"]⟩,
          .raise (.timeout "t"), .ok ()⟩ json_loads "/tmp" "img" 120 =
        .ok (Nanobanana.genExc 120 (.timeout "t"))) :=
  ⟨⟨by decide, by decide,
    (C3_exceptions_amended.1 [("Secure_1PSID", "x")] (.ok ⟨"", []⟩) false (.other "boom")
      (by decide) (by decide)).2,
    C3_exceptions_amended.2.2.2.2.2.1 [("Secure_1PSID", "x")] (.ok ()) (.ok ⟨"", []⟩)
      (.other "closefail") false (by decide) (by decide)⟩,
   ⟨by rfl,
    ((C3_exceptions_amended.2.2.1 [("Secure_1PSID", "x")] (.ok ⟨200, "OK", []⟩) (.ok 200)
      json_loads "/tmp" "img" 120 (.timeout "t") (by decide) (by decide)).2.2 "OK"
      ["[\"https://lh3.googleusercontent.com/gg-dl/a\"]"] (by rfl))⟩⟩

/- ---------------------------------------------------------------------
Claim C6: the URL pattern of find_image_urls_recursive.
--------------------------------------------------------------------- -/

theorem ggdl_isImageUrl {s r : List Char} (h : litMatch Nanobanana.ggDlMarker s = some r) :
    Nanobanana.isImageUrl s = true := by
  have hs := litMatch_eq h
  subst hs
  unfold Nanobanana.isImageUrl
  rw [Bool.and_eq_true]
  constructor
  · show (litMatch Nanobanana.httpsMarker
        (Nanobanana.httpsMarker ++ ("lh3.googleusercontent.com/gg-dl/".data ++ r))).isSome = true
    rw [litMatch_append]
    rfl
  · show containsSub
      ("https://lh3.".data ++ (Nanobanana.gucNeedle ++ ("/gg-dl/".data ++ r)))
      Nanobanana.gucNeedle = true
    exact containsSub_mid _ _ _

theorem findGo_str_branch (s : List Char) :
    (if (litMatch Nanobanana.ggDlMarker s).isSome then [s]
     else if (litMatch Nanobanana.httpsMarker s).isSome && containsSub s Nanobanana.gucNeedle then [s]
     else []) = if Nanobanana.isImageUrl s then [s] else [] := by
  by_cases hg : (litMatch Nanobanana.ggDlMarker s).isSome = true
  · rw [if_pos hg]
    cases hm : litMatch Nanobanana.ggDlMarker s with
    | none => rw [hm] at hg; exact absurd hg (by simp)
    | some r => rw [if_pos (ggdl_isImageUrl hm)]
  · rw [if_neg hg]
    unfold Nanobanana.isImageUrl
    rfl

theorem findGo_mem (s : List Char) :
    ∀ (fuel depth : Nat) (obj : JVal), fuel = 31 - depth →
    (s ∈ Nanobanana.findGo fuel obj depth ↔
      Nanobanana.isImageUrl s = true ∧ ∃ k, depth + k ≤ 30 ∧ Nanobanana.OccursAt s k obj) := by
  intro fuel
  induction fuel with
  | zero =>
    intro depth obj hf
    constructor
    · intro hmem
      exact absurd hmem (List.not_mem_nil s)
    · rintro ⟨_, k, hk, _⟩
      omega
  | succ fuel ih =>
    intro depth obj hf
    have hd : ¬ depth > 30 := by omega
    have hf2 : fuel = 31 - (depth + 1) := by omega
    cases obj with
    | str t =>
      have he : Nanobanana.findGo (fuel+1) (.str t) depth =
          (if Nanobanana.isImageUrl t then [t] else []) := by
        rw [show Nanobanana.findGo (fuel+1) (.str t) depth =
            (if depth > 30 then [] else
              if (litMatch Nanobanana.ggDlMarker t).isSome then [t]
              else if (litMatch Nanobanana.httpsMarker t).isSome &&
                  containsSub t Nanobanana.gucNeedle then [t]
              else []) from rfl]
        rw [if_neg hd]
        exact findGo_str_branch t
      rw [he]
      constructor
      · intro hmem
        by_cases himg : Nanobanana.isImageUrl t = true
        · rw [if_pos himg] at hmem
          have hst : s = t := by simpa using hmem
          subst hst
          exact ⟨himg, 0, by omega, Nanobanana.OccursAt.here s⟩
        · rw [if_neg himg] at hmem
          exact absurd hmem (List.not_mem_nil s)
      · rintro ⟨himg, k, hk, hocc⟩
        cases hocc
        rw [if_pos himg]
        exact List.mem_singleton.2 rfl
    | arr items =>
      have he : Nanobanana.findGo (fuel+1) (.arr items) depth =
          concatAll (items.map (fun it => Nanobanana.findGo fuel it (depth + 1))) := by
        rw [show Nanobanana.findGo (fuel+1) (.arr items) depth =
            (if depth > 30 then [] else
              concatAll (items.map (fun it => Nanobanana.findGo fuel it (depth + 1)))) from rfl]
        rw [if_neg hd]
      rw [he, mem_concatAll]
      constructor
      · rintro ⟨l, hl, hmem⟩
        obtain ⟨it, hit, rfl⟩ := List.mem_map.1 hl
        obtain ⟨himg, k, hk, hocc⟩ := (ih (depth+1) it hf2).1 hmem
        exact ⟨himg, k+1, by omega, Nanobanana.OccursAt.inArr it items hit hocc⟩
      · rintro ⟨himg, k, hk, hocc⟩
        cases hocc with
        | inArr it items2 hit hocc2 =>
          exact ⟨Nanobanana.findGo fuel it (depth+1), List.mem_map.2 ⟨it, hit, rfl⟩,
            (ih (depth+1) it hf2).2 ⟨himg, _, by omega, hocc2⟩⟩
    | obj kvs =>
      have he : Nanobanana.findGo (fuel+1) (.obj kvs) depth =
          concatAll (kvs.map (fun kv => Nanobanana.findGo fuel kv.2 (depth + 1))) := by
        rw [show Nanobanana.findGo (fuel+1) (.obj kvs) depth =
            (if depth > 30 then [] else
              concatAll (kvs.map (fun kv => Nanobanana.findGo fuel kv.2 (depth + 1)))) from rfl]
        rw [if_neg hd]
      rw [he, mem_concatAll]
      constructor
      · rintro ⟨l, hl, hmem⟩
        obtain ⟨kv, hkv, rfl⟩ := List.mem_map.1 hl
        obtain ⟨himg, k, hk, hocc⟩ := (ih (depth+1) kv.2 hf2).1 hmem
        exact ⟨himg, k+1, by omega, Nanobanana.OccursAt.inObj kv kvs hkv hocc⟩
      · rintro ⟨himg, k, hk, hocc⟩
        cases hocc with
        | inObj kv kvs2 hkv hocc2 =>
          exact ⟨Nanobanana.findGo fuel kv.2 (depth+1), List.mem_map.2 ⟨kv, hkv, rfl⟩,
            (ih (depth+1) kv.2 hf2).2 ⟨himg, _, by omega, hocc2⟩⟩
    | null =>
      have he : Nanobanana.findGo (fuel+1) .null depth = [] := by
        rw [show Nanobanana.findGo (fuel+1) JVal.null depth =
            (if depth > 30 then [] else []) from rfl]
        rw [if_neg hd]
      rw [he]
      constructor
      · intro hmem
        exact absurd hmem (List.not_mem_nil s)
      · rintro ⟨_, k, hk, hocc⟩
        cases hocc
    | bool b =>
      have he : Nanobanana.findGo (fuel+1) (.bool b) depth = [] := by
        rw [show Nanobanana.findGo (fuel+1) (JVal.bool b) depth =
            (if depth > 30 then [] else []) from rfl]
        rw [if_neg hd]
      rw [he]
      constructor
      · intro hmem
        exact absurd hmem (List.not_mem_nil s)
      · rintro ⟨_, k, hk, hocc⟩
        cases hocc
    | num n =>
      have he : Nanobanana.findGo (fuel+1) (.num n) depth = [] := by
        rw [show Nanobanana.findGo (fuel+1) (JVal.num n) depth =
            (if depth > 30 then [] else []) from rfl]
        rw [if_neg hd]
      rw [he]
      constructor
      · intro hmem
        exact absurd hmem (List.not_mem_nil s)
      · rintro ⟨_, k, hk, hocc⟩
        cases hocc

theorem occurs_deepNest (n : Nat) (s : List Char) :
    Nanobanana.OccursAt s n (Nanobanana.deepNest n (.str s)) := by
  induction n with
  | zero => exact Nanobanana.OccursAt.here s
  | succ n ih =>
    exact Nanobanana.OccursAt.inArr _ _ (List.mem_singleton.2 rfl) ih

/-- C6 (counterexample): the claim says `find_image_urls_recursive` collects
every matching string occurring anywhere in the structure; a matching URL
nested 31 singleton arrays deep is beyond the `depth > 30` cut-off and is
not collected. -/
theorem C6_counterexample :
    Nanobanana.isImageUrl "https://lh3.googleusercontent.com/gg-dl/a".data = true ∧
    Nanobanana.OccursAt "https://lh3.googleusercontent.com/gg-dl/a".data 31
      (Nanobanana.deepNest 31 (.str "https://lh3.googleusercontent.com/gg-dl/a".data)) ∧
    Nanobanana.find_image_urls_recursive
      (Nanobanana.deepNest 31 (.str "https://lh3.googleusercontent.com/gg-dl/a".data)) 0 = [] :=
  ⟨by decide, occurs_deepNest 31 _, by rfl⟩

/-- C6 (amended): `find_image_urls_recursive` collects exactly those strings
of the structure that match the fixed pattern (start with `https://` and
contain `googleusercontent.com`, which subsumes the dedicated
`https://lh3.googleusercontent.com/gg-dl/` branch) **and** occur at nesting
depth at most 30; strings below the depth cut-off are dropped; no other
string is ever returned, and `extract_image_urls` returns exactly the
strings so collected from some chunk. -/
theorem C6_url_collection_amended :
    (∀ (s : List Char) (obj : JVal),
      s ∈ Nanobanana.find_image_urls_recursive obj 0 ↔
        Nanobanana.isImageUrl s = true ∧ ∃ k, k ≤ 30 ∧ Nanobanana.OccursAt s k obj) ∧
    (∀ (s : List Char) (chunks : List JVal),
      s ∈ Nanobanana.extract_image_urls chunks ↔
        ∃ c ∈ chunks, s ∈ Nanobanana.find_image_urls_recursive c 0) := by
  constructor
  · intro s obj
    have h := findGo_mem s 31 0 obj rfl
    unfold Nanobanana.find_image_urls_recursive
    simpa using h
  · intro s chunks
    unfold Nanobanana.extract_image_urls
    rw [List.mem_dedup, mem_concatAll]
    constructor
    · rintro ⟨l, hl, hmem⟩
      obtain ⟨c, hc, rfl⟩ := List.mem_map.1 hl
      exact ⟨c, hc, hmem⟩
    · rintro ⟨c, hc, hmem⟩
      exact ⟨_, List.mem_map.2 ⟨c, hc, rfl⟩, hmem⟩

/- ---------------------------------------------------------------------
Claim C10: extract_video_id.
--------------------------------------------------------------------- -/

theorem take11_spec {l cap rest : List Char} (h : YtTranscript.take11 l = some (cap, rest)) :
    cap.length = 11 ∧ cap.all YtTranscript.videoIdChar = true ∧ l = cap ++ rest := by
  unfold YtTranscript.take11 at h
  split at h
  · next hcond =>
    simp only [Option.some.injEq, Prod.mk.injEq] at h
    obtain ⟨hcap, hrest⟩ := h
    subst hcap
    subst hrest
    exact ⟨hcond.1, hcond.2, (List.take_append_drop 11 l).symm⟩
  · exact absurd h (by simp)

theorem cap11_spec {l cap : List Char} (h : YtTranscript.cap11 l = some cap) :
    cap.length = 11 ∧ cap.all YtTranscript.videoIdChar = true := by
  unfold YtTranscript.cap11 at h
  cases ht : YtTranscript.take11 l with
  | none => rw [ht] at h; exact absurd h (by simp)
  | some pr =>
    obtain ⟨c2, r2⟩ := pr
    rw [ht] at h
    simp at h
    subst h
    exact ⟨(take11_spec ht).1, (take11_spec ht).2.1⟩

theorem greedyVCapture_spec {l cap : List Char}
    (h : YtTranscript.greedyVCapture l = some cap) :
    cap.length = 11 ∧ cap.all YtTranscript.videoIdChar = true := by
  induction l generalizing cap with
  | nil => exact Option.noConfusion h
  | cons c cs ih =>
    unfold YtTranscript.greedyVCapture at h
    split at h
    · next cap2 hdeep =>
      injection h with h2
      subst h2
      by_cases hnl : c = '\n'
      · rw [if_pos hnl] at hdeep
        exact absurd hdeep (by simp)
      · rw [if_neg hnl] at hdeep
        exact ih hdeep
    · split at h
      · exact cap11_spec h
      · exact absurd h (by simp)

theorem searchRe_spec (P : List Char → Prop) (k : List Char → Option (List Char))
    (hk : ∀ r cap, k r = some cap → P cap) (m : List Char) :
    ∀ (s cap : List Char), YtTranscript.searchRe k m s = some cap → P cap := by
  intro s
  induction s with
  | nil => intro cap h; exact Option.noConfusion h
  | cons c cs ih =>
    intro cap h
    unfold YtTranscript.searchRe at h
    split at h
    · next r hr =>
      split at h
      · next cap2 hk2 =>
        injection h with h2
        subst h2
        exact hk r cap2 hk2
      · exact ih cap h
    · exact ih cap h

theorem searchRe_none (m : List Char) (hbad : m.all YtTranscript.videoIdChar = false)
    (k : List Char → Option (List Char)) :
    ∀ s : List Char, s.all YtTranscript.videoIdChar = true →
    YtTranscript.searchRe k m s = none := by
  intro s
  induction s with
  | nil => intro _; rfl
  | cons c cs ih =>
    intro hall
    have hcs : cs.all YtTranscript.videoIdChar = true := by
      rw [List.all_cons, Bool.and_eq_true] at hall
      exact hall.2
    unfold YtTranscript.searchRe
    cases hlm : litMatch m (c :: cs) with
    | some r =>
      exfalso
      have heq := litMatch_eq hlm
      have hall2 : (c :: cs).all YtTranscript.videoIdChar = true := hall
      rw [heq, List.all_append, Bool.and_eq_true] at hall2
      rw [hall2.1] at hbad
      cases hbad
    | none => exact ih hcs

theorem bareIdMatch_spec {s cap : List Char} (h : YtTranscript.bareIdMatch s = some cap) :
    cap.length = 11 ∧ cap.all YtTranscript.videoIdChar = true := by
  unfold YtTranscript.bareIdMatch at h
  split at h
  · exact absurd h (by simp)
  · next cap2 rest2 ht =>
    split at h
    · injection h with h2
      subst h2
      exact ⟨(take11_spec ht).1, (take11_spec ht).2.1⟩
    · exact absurd h (by simp)

theorem bareIdMatch_self {s : List Char} (hlen : s.length = 11)
    (hall : s.all YtTranscript.videoIdChar = true) :
    YtTranscript.bareIdMatch s = some s := by
  have htake : s.take 11 = s := List.take_of_length_le (by omega)
  have hdrop : s.drop 11 = [] := List.drop_eq_nil_of_le (by omega)
  unfold YtTranscript.bareIdMatch YtTranscript.take11
  rw [htake, hdrop]
  rw [if_pos ⟨hlen, hall⟩]
  simp

theorem extract_video_id_spec {url v : List Char}
    (h : YtTranscript.extract_video_id url = some v) :
    v.length = 11 ∧ v.all YtTranscript.videoIdChar = true := by
  have hP : ∀ r cap : List Char, YtTranscript.cap11 r = some cap →
      cap.length = 11 ∧ cap.all YtTranscript.videoIdChar = true :=
    fun r cap hc => cap11_spec hc
  unfold YtTranscript.extract_video_id at h
  split at h
  · next cap h1 =>
    injection h with h2
    subst h2
    exact searchRe_spec _ _ (fun r cap hc => greedyVCapture_spec hc) _ _ _ h1
  · split at h
    · next cap h2 =>
      injection h with h3
      subst h3
      exact searchRe_spec _ _ hP _ _ _ h2
    · split at h
      · next cap h3 =>
        injection h with h4
        subst h4
        exact searchRe_spec _ _ hP _ _ _ h3
      · split at h
        · next cap h4 =>
          injection h with h5
          subst h5
          exact searchRe_spec _ _ hP _ _ _ h4
        · exact bareIdMatch_spec h

theorem extract_video_id_bare {url : List Char} (hlen : url.length = 11)
    (hall : url.all YtTranscript.videoIdChar = true) :
    YtTranscript.extract_video_id url = some url := by
  unfold YtTranscript.extract_video_id
  rw [searchRe_none YtTranscript.watchMarker (by decide) YtTranscript.greedyVCapture url hall]
  rw [searchRe_none YtTranscript.shortUrlMarker (by decide) YtTranscript.cap11 url hall]
  rw [searchRe_none YtTranscript.embedMarker (by decide) YtTranscript.cap11 url hall]
  rw [searchRe_none YtTranscript.shortsMarker (by decide) YtTranscript.cap11 url hall]
  exact bareIdMatch_self hlen hall

/-- C10: `extract_video_id` returns `none` or a captured group of exactly
eleven characters drawn from `[a-zA-Z0-9_-]`, and an input that is itself a
bare eleven-character video id of that alphabet is returned unchanged (the
four URL patterns cannot match such an input, and the bare-id pattern
matches all of it). -/
theorem C10_video_id_shape : ∀ url : List Char,
    (∀ v, YtTranscript.extract_video_id url = some v →
      v.length = 11 ∧ v.all YtTranscript.videoIdChar = true) ∧
    (url.length = 11 → url.all YtTranscript.videoIdChar = true →
      YtTranscript.extract_video_id url = some url) :=
  fun url =>
    ⟨fun _ h => extract_video_id_spec h, fun h1 h2 => extract_video_id_bare h1 h2⟩

theorem C10_video_id_shape_witness :
    ("dQw4w9WgXcQ".data.length = 11 ∧
      "dQw4w9WgXcQ".data.all YtTranscript.videoIdChar = true) ∧
    YtTranscript.extract_video_id "dQw4w9WgXcQ".data = some "dQw4w9WgXcQ".data :=
  ⟨⟨by decide, by decide⟩,
   (C10_video_id_shape "dQw4w9WgXcQ".data).2 (by decide) (by decide)⟩
